import Mathlib

/-!
Shallow embedding of the live-monitoring core of telegram_parser_gui.py:
the TelegramMonitor poll loop (class TelegramMonitor), the group registry
operations of AdvancedTelegramParserGUI (_start_selected_monitoring,
_stop_selected_monitoring, _show_group_dialog.save_action) and the
TelegramGroup identity computation.

The dispatch-pipeline callbacks (message_callback, status_callback) are
external collaborators; they are modelled as parameters that receive the
documented arguments and may themselves raise an exception.  Invoking a
callback is recorded as an emitted Event; a raise by the callback is
modelled separately so that exception propagation can be stated.
-/

namespace TgMon

/-- Python exceptions relevant to the poll loop, carrying str(exc). -/
inductive PyExc where
  /-- requests.exceptions.RequestException and subclasses. -/
  | reqExc (msg : String)
  /-- RuntimeError (raised e.g. by Thread.join on the current thread). -/
  | runtimeError (msg : String)
  /-- any other exception. -/
  | otherExc (msg : String)
  deriving Repr, DecidableEq

/-- str(exc) for the exception. -/
def PyExc.text : PyExc → String
  | .reqExc m => m
  | .runtimeError m => m
  | .otherExc m => m

/-- The envelope of update["message"] as read by the loop.  `chatId` is
update["message"].get("chat", {}).get("id"): `none` when the chat object or
its id is missing (both paths yield Python None).  `payload` stands for the
rest of the raw message record, which the core never inspects. -/
structure TgMessage where
  chatId : Option Int
  payload : Nat
  deriving Repr, DecidableEq

/-- str(update["message"].get("chat", {}).get("id")): Python str of an int,
or "None" for a missing chat/id. -/
def chatIdStr (m : TgMessage) : String :=
  match m.chatId with
  | some i => toString i
  | none => "None"

/-- One element of data["result"]: update_id plus the optional "message"
field ("message" in update is false when it is `none`). -/
structure Update where
  update_id : Int
  message : Option TgMessage
  deriving Repr, DecidableEq

/-- A dispatch-pipeline emission: one status-callback or message-callback
invocation, with the arguments the code passes. -/
inductive Event where
  | status (text : String) (severity : String) (gid : String)
  | message (m : TgMessage) (gid : String)
  deriving Repr, DecidableEq

/-- Whether the event is a status event of severity "error". -/
def Event.isError : Event → Bool
  | .status _ sev _ => sev == "error"
  | .message _ _ => false

/-- Keep only the message-callback invocations. -/
def messageEvents (evs : List Event) : List Event :=
  evs.filter fun e =>
    match e with
    | Event.message _ _ => true
    | Event.status _ _ _ => false

/-- Behaviour of the consumer's callbacks: what exception, if any, each
invocation raises back into the loop.  `msgExc` is keyed by the arguments
of message_callback (update id recorded for bookkeeping, then the raw
message); `statusExc` by the status text. -/
structure CbBehavior where
  msgExc : Int → TgMessage → Option PyExc
  statusExc : String → Option PyExc

/-- Callbacks that always return normally. -/
def cbQuiet : CbBehavior := ⟨fun _ _ => none, fun _ => none⟩

/-- A status callback that returns normally, message callback arbitrary. -/
def cbNoStatusRaise (msgExc : Int → TgMessage → Option PyExc) : CbBehavior :=
  ⟨msgExc, fun _ => none⟩

/-- The mutable state of a TelegramMonitor instance.  `thread` is
self.thread, abstracted to a spawn identifier (`none` before any start). -/
structure MonitorState where
  bot_token : String
  chat_id : String
  group_id : String
  running : Bool
  last_update_id : Int
  thread : Option Nat
  deriving Repr, DecidableEq

/-- TelegramMonitor.__init__ (chat_id is already str-normalized by the
caller, which passes group.chat_id). -/
def mkMonitor (bot_token chat_id group_id : String) : MonitorState :=
  { bot_token := bot_token, chat_id := chat_id, group_id := group_id,
    running := false, last_update_id := 0, thread := none }

/-- Result of TelegramMonitor.start. -/
structure MonStartOut where
  monitor : MonitorState
  events : List Event
  /-- whether a new poll thread was created and started. -/
  spawned : Bool
  deriving Repr, DecidableEq

/-- TelegramMonitor.start: early-returns if already running; otherwise sets
running, resets the cursor, spawns the poll thread and emits the started
status event. -/
def monitorStart (fresh : Nat) (m : MonitorState) : MonStartOut :=
  if m.running then ⟨m, [], false⟩
  else
    ⟨{ m with running := true, last_update_id := 0, thread := some fresh },
     [Event.status "Monitoring started successfully." "success" m.group_id],
     true⟩

/-- TelegramMonitor.stop invoked from a thread other than the poll thread
(the GUI control path): clears running, joins the poll thread with a bounded
timeout (which returns normally), and emits the stopped status event. -/
def monitorStopExternal (m : MonitorState) : MonitorState × List Event :=
  ({ m with running := false },
   [Event.status "Monitoring stopped." "info" m.group_id])

/-- TelegramMonitor.stop invoked from inside the poll thread itself (the 401
branch of _poll_updates).  running is cleared first; then, since self.thread
is the current thread and alive, Thread.join raises
RuntimeError("cannot join current thread") and the stopped status event is
never reached.  (The `none` branch keeps the function total: with no thread
the join is skipped and the stopped event is emitted.) -/
def stopFromPollThread (cb : CbBehavior) (m : MonitorState) :
    MonitorState × List Event × Option PyExc :=
  let m' := { m with running := false }
  match m'.thread with
  | some _ => (m', [], some (PyExc.runtimeError "cannot join current thread"))
  | none =>
    (m', [Event.status "Monitoring stopped." "info" m.group_id],
     cb.statusExc "Monitoring stopped.")

/-- One step of the for-loop over data["result"]: the cursor assignment
self.last_update_id = update["update_id"], and the message_callback
invocation for a relevant update. -/
inductive BatchStep where
  | assign (uid : Int)
  | deliver (uid : Int) (m : TgMessage)
  deriving Repr, DecidableEq

/-- Result of running the for-loop over one batch. -/
structure BatchOut where
  /-- final self.last_update_id. -/
  cursor : Int
  /-- assignments and deliveries, in execution order. -/
  trace : List BatchStep
  /-- exception raised by the message callback, aborting the for-loop. -/
  exc : Option PyExc
  deriving Repr, DecidableEq

/-- The for-loop body of _poll_updates over data["result"]: for each update,
assign the cursor, then, if the update has a "message" whose chat id
str-equals self.chat_id, invoke the message callback; a callback exception
aborts the remainder of the batch. -/
def runBatch (cb : CbBehavior) (target : String) :
    List Update → Int → BatchOut
  | [], last => ⟨last, [], none⟩
  | u :: rest, _last =>
    let cursor := u.update_id
    match u.message with
    | some m =>
      if chatIdStr m == target then
        match cb.msgExc u.update_id m with
        | some e =>
          ⟨cursor, [BatchStep.assign cursor, BatchStep.deliver u.update_id m], some e⟩
        | none =>
          let r := runBatch cb target rest cursor
          ⟨r.cursor, BatchStep.assign cursor :: BatchStep.deliver u.update_id m :: r.trace,
           r.exc⟩
      else
        let r := runBatch cb target rest cursor
        ⟨r.cursor, BatchStep.assign cursor :: r.trace, r.exc⟩
    | none =>
      let r := runBatch cb target rest cursor
      ⟨r.cursor, BatchStep.assign cursor :: r.trace, r.exc⟩

/-- The message-callback invocations recorded in a batch trace. -/
def stepEvents (gid : String) (tr : List BatchStep) : List Event :=
  tr.filterMap fun s =>
    match s with
    | BatchStep.deliver _ m => some (Event.message m gid)
    | BatchStep.assign _ => none

/-- What one requests.get call to getUpdates did, as scripted by a test. -/
inductive FetchRes where
  /-- an HTTP response with status code and parsed JSON body fields
  (data["ok"], data["result"], data["description"]). -/
  | resp (status : Nat) (ok : Bool) (result : List Update) (description : Option String)
  /-- requests.exceptions.RequestException raised by the fetch. -/
  | netError (msg : String)
  /-- any other exception raised inside the try body before the branching
  (e.g. a JSON decoding failure). -/
  | otherError (msg : String)
  deriving Repr, DecidableEq

/-- Python str for the optional description field ("None" when missing). -/
def pyStrOptS : Option String → String
  | some s => s
  | none => "None"

/-- The except clauses of the iteration body: RequestException sleeps 15s,
every other exception sleeps 10s; both log "error" status text built from
str(exc). -/
def handleLoopExc : PyExc → String × Nat
  | PyExc.reqExc m => ("Network Error: " ++ m, 15)
  | PyExc.runtimeError m => ("Polling Error: " ++ m, 10)
  | PyExc.otherExc m => ("Polling Error: " ++ m, 10)

/-- Result of one while-iteration of _poll_updates. -/
structure IterOut where
  state : MonitorState
  events : List Event
  /-- time.sleep durations executed, in seconds, in order. -/
  sleeps : List Nat
  /-- the iteration ended the loop via break. -/
  brk : Bool
  /-- an exception escaped the iteration body (and hence the loop). -/
  exc : Option PyExc
  deriving Repr, DecidableEq

/-- Running one except clause: the handler's status callback is invoked; if
it raises, that exception escapes the loop, otherwise the backoff sleep and
the trailing 1-second sleep run. -/
def exceptBlock (cb : CbBehavior) (e : PyExc) (s : MonitorState)
    (prior : List Event) : IterOut :=
  let h := handleLoopExc e
  match cb.statusExc h.1 with
  | some e2 => ⟨s, prior ++ [Event.status h.1 "error" s.group_id], [], false, some e2⟩
  | none => ⟨s, prior ++ [Event.status h.1 "error" s.group_id], [h.2, 1], false, none⟩

/-- One iteration of the while-loop body of TelegramMonitor._poll_updates.
`r` scripts what the requests.get call did; `extStop` models a concurrent
stop() having cleared self.running while the fetch was in flight (the
`if not self.running: break` check right after the fetch). -/
def iterate (cb : CbBehavior) (r : FetchRes) (extStop : Bool) (s : MonitorState) :
    IterOut :=
  match r with
  | FetchRes.netError msg => exceptBlock cb (PyExc.reqExc msg) s []
  | FetchRes.otherError msg => exceptBlock cb (PyExc.otherExc msg) s []
  | FetchRes.resp status ok result desc =>
    if extStop then ⟨{ s with running := false }, [], [], true, none⟩
    else if status == 200 then
      if ok && !result.isEmpty then
        let b := runBatch cb s.chat_id result s.last_update_id
        let s' := { s with last_update_id := b.cursor }
        match b.exc with
        | some e => exceptBlock cb e s' (stepEvents s.group_id b.trace)
        | none => ⟨s', stepEvents s.group_id b.trace, [1], false, none⟩
      else if !ok then
        let txt := "API Error: " ++ pyStrOptS desc
        match cb.statusExc txt with
        | some e => exceptBlock cb e s [Event.status txt "error" s.group_id]
        | none => ⟨s, [Event.status txt "error" s.group_id], [10, 1], false, none⟩
      else ⟨s, [], [1], false, none⟩
    else if status == 401 then
      let txt := "API Error: Unauthorized. Check bot token."
      match cb.statusExc txt with
      | some e => exceptBlock cb e s [Event.status txt "error" s.group_id]
      | none =>
        let st := stopFromPollThread cb s
        match st.2.2 with
        | some e => exceptBlock cb e st.1 (Event.status txt "error" s.group_id :: st.2.1)
        | none =>
          ⟨st.1, Event.status txt "error" s.group_id :: st.2.1, [], true, none⟩
    else
      let txt := "HTTP Error " ++ toString status
      match cb.statusExc txt with
      | some e => exceptBlock cb e s [Event.status txt "error" s.group_id]
      | none => ⟨s, [Event.status txt "error" s.group_id], [10, 1], false, none⟩

/-- Result of a (scripted, finite) run of the while loop. -/
structure LoopOut where
  state : MonitorState
  /-- the offset parameter of each getUpdates request issued, in order. -/
  offsets : List Int
  events : List Event
  sleeps : List Nat
  exc : Option PyExc
  deriving Repr, DecidableEq

/-- The while loop of _poll_updates, run against a finite script of fetch
outcomes (the run ends when the script is exhausted).  Each iteration first
checks self.running, then issues a fetch with offset last_update_id + 1. -/
def pollLoop (cb : CbBehavior) : List FetchRes → MonitorState → LoopOut
  | [], s => ⟨s, [], [], [], none⟩
  | r :: rest, s =>
    if s.running then
      let off := s.last_update_id + 1
      let it := iterate cb r false s
      if it.brk || it.exc.isSome then
        ⟨it.state, [off], it.events, it.sleeps, it.exc⟩
      else
        let lo := pollLoop cb rest it.state
        ⟨lo.state, off :: lo.offsets, it.events ++ lo.events,
         it.sleeps ++ lo.sleeps, lo.exc⟩
    else ⟨s, [], [], [], none⟩

/-- The whole _poll_updates thread body: the initial "Polling for updates"
status event, then the while loop.  (The requests-missing early return is
not modelled: the library is assumed installed.) -/
def pollUpdatesRun (cb : CbBehavior) (script : List FetchRes) (m : MonitorState) :
    LoopOut :=
  let txt := "Polling for updates from chat ID: " ++ m.chat_id ++ "..."
  match cb.statusExc txt with
  | some e => ⟨m, [], [Event.status txt "info" m.group_id], [], some e⟩
  | none =>
    let lo := pollLoop cb script m
    ⟨lo.state, lo.offsets, Event.status txt "info" m.group_id :: lo.events,
     lo.sleeps, lo.exc⟩

/-- A Python value that may arrive as an int or a string (chat ids come from
dialog entries as strings but from the persisted JSON possibly as ints). -/
inductive PyVal where
  | str (s : String)
  | int (n : Int)
  deriving Repr, DecidableEq

/-- Python str() on such a value. -/
def pyStr : PyVal → String
  | PyVal.str s => s
  | PyVal.int n => toString n

/-- The TelegramGroup record: configuration for one monitored source. -/
structure TelegramGroup where
  name : String
  chat_id : String
  bot_token : Option String
  auto_save : Bool
  is_monitoring : Bool
  monitor_instance : Option MonitorState
  id : String
  deriving Repr, DecidableEq

/-- TelegramGroup.__init__: normalizes chat_id with str() and derives the
identifier as md5 of the f-string "{name}-{chat_id}".  The md5 hexdigest is
an opaque deterministic function of that string, passed in as `md5hex`. -/
def mkTelegramGroup (md5hex : String → String) (name : String) (chat_id : PyVal)
    (bot_token : Option String) (auto_save : Bool) : TelegramGroup :=
  let cid := pyStr chat_id
  { name := name, chat_id := cid, bot_token := bot_token, auto_save := auto_save,
    is_monitoring := false, monitor_instance := none,
    id := md5hex (name ++ "-" ++ cid) }

/-- The GUI-side registry: self.telegram_groups (a dict keyed by group id)
together with the status column of self.group_tree. -/
structure Registry where
  groups : List (String × TelegramGroup)
  treeStatus : List (String × String)
  deriving Repr, DecidableEq

/-- self.telegram_groups.get(gid). -/
def lookupGroups (gs : List (String × TelegramGroup)) (gid : String) :
    Option TelegramGroup :=
  match gs.find? (fun p => p.1 == gid) with
  | some p => some p.2
  | none => none

/-- In-place mutation of the group object stored under gid. -/
def updateGroups (gs : List (String × TelegramGroup)) (gid : String)
    (g : TelegramGroup) : List (String × TelegramGroup) :=
  gs.map fun p => if p.1 == gid then (p.1, g) else p

/-- self.group_tree.set(gid, "status", stat). -/
def setTree (t : List (String × String)) (gid stat : String) :
    List (String × String) :=
  t.map fun p => if p.1 == gid then (p.1, stat) else p

/-- Python `a or b` for an optional string: None and "" are falsy. -/
def pyOrStr : Option String → String → String
  | some t, d => if t == "" then d else t
  | none, d => d

/-- Result of _start_selected_monitoring for one selected gid. -/
structure StartOut where
  reg : Registry
  events : List Event
  /-- whether a new poll thread was created and started. -/
  spawned : Bool
  deriving Repr, DecidableEq

/-- AdvancedTelegramParserGUI._start_selected_monitoring for a selected gid:
if the group exists and is not marked monitoring, resolve the token
(per-source token or the default-token entry), construct a TelegramMonitor,
start it, mark the group monitoring and show "Running" in the tree. -/
def startSelectedMonitoring (defaultToken : String) (fresh : Nat)
    (reg : Registry) (gid : String) : StartOut :=
  match lookupGroups reg.groups gid with
  | some g =>
    if g.is_monitoring then ⟨reg, [], false⟩
    else
      let token := pyOrStr g.bot_token defaultToken
      let r := monitorStart fresh (mkMonitor token g.chat_id gid)
      ⟨{ groups := updateGroups reg.groups gid
            { g with monitor_instance := some r.monitor, is_monitoring := true },
         treeStatus := setTree reg.treeStatus gid "Running" },
       r.events, r.spawned⟩
  | none => ⟨reg, [], false⟩

/-- Result of _stop_selected_monitoring for one selected gid. -/
structure StopOut where
  reg : Registry
  events : List Event
  deriving Repr, DecidableEq

/-- AdvancedTelegramParserGUI._stop_selected_monitoring for a selected gid:
only acts when the group exists, is marked monitoring and has a monitor
instance; then stops the monitor (from the GUI thread), clears the flag and
shows "Stopped" in the tree. -/
def stopSelectedMonitoring (reg : Registry) (gid : String) : StopOut :=
  match lookupGroups reg.groups gid with
  | some g =>
    if g.is_monitoring then
      match g.monitor_instance with
      | some m =>
        let r := monitorStopExternal m
        ⟨{ groups := updateGroups reg.groups gid
              { g with is_monitoring := false, monitor_instance := some r.1 },
           treeStatus := setTree reg.treeStatus gid "Stopped" },
         r.2⟩
      | none => ⟨reg, []⟩
    else ⟨reg, []⟩
  | none => ⟨reg, []⟩

/-- _show_group_dialog.save_action in edit mode: after the non-empty
validation, overwrite name, chat id and token of the existing group object
(its id field and its key in telegram_groups are not touched) and refresh
the tree row under the same iid. -/
def saveActionEdit (reg : Registry) (gid : String) (name chat_id : String)
    (token : Option String) : Registry :=
  if name == "" || chat_id == "" then reg
  else
    match lookupGroups reg.groups gid with
    | some g =>
      { groups := updateGroups reg.groups gid
          { g with name := name, chat_id := chat_id, bot_token := token },
        treeStatus := setTree reg.treeStatus gid
          (if g.is_monitoring then "Running" else "Stopped") }
    | none => reg

/-- _show_group_dialog.save_action in add mode: construct a fresh
TelegramGroup and insert it under its derived id, with a "Stopped" row. -/
def saveActionAdd (md5hex : String → String) (reg : Registry)
    (name chat_id : String) (token : Option String) : Registry :=
  if name == "" || chat_id == "" then reg
  else
    let g := mkTelegramGroup md5hex name (PyVal.str chat_id) token false
    { groups := reg.groups ++ [(g.id, g)],
      treeStatus := reg.treeStatus ++ [(g.id, "Stopped")] }

/-- The raw messages of the updates passing the chat-id filter, in order
(specification-side description of which updates are relevant). -/
def relevantMsgs (target : String) : List Update → List TgMessage
  | [] => []
  | u :: rest =>
    match u.message with
    | some m =>
      if chatIdStr m == target then m :: relevantMsgs target rest
      else relevantMsgs target rest
    | none => relevantMsgs target rest

/-- Shape invariant of a batch trace: a sequence of per-update chunks, each
a cursor assignment optionally followed by the delivery of that update. -/
inductive TraceOk : List BatchStep → Prop where
  | nil : TraceOk []
  | skip (i : Int) (tr : List BatchStep) :
      TraceOk tr → TraceOk (BatchStep.assign i :: tr)
  | hit (i : Int) (m : TgMessage) (tr : List BatchStep) :
      TraceOk tr → TraceOk (BatchStep.assign i :: BatchStep.deliver i m :: tr)

/-- The scripted batch of the end-to-end scenario: update 5 for chat 123,
update 6 for chat 456, in ascending order. -/
def demoBatch : List Update := [⟨5, some ⟨some 123, 0⟩⟩, ⟨6, some ⟨some 456, 1⟩⟩]

/-- Scenario script: the demo batch, then an empty successful poll. -/
def demoScript : List FetchRes :=
  [FetchRes.resp 200 true demoBatch none, FetchRes.resp 200 true [] none]

/-- A monitor for chat "123" that has just been started. -/
def demoMonitor : MonitorState := (monitorStart 0 (mkMonitor "TOKEN" "123" "g1")).monitor

/-- A batch arriving out of sequence order: update 6 first, then update 5
(both for chats other than the target). -/
def unsortedBatch : List Update := [⟨6, some ⟨some 777, 0⟩⟩, ⟨5, some ⟨some 888, 0⟩⟩]

/-- A batch arriving out of order where both updates match the target. -/
def unsortedRelevant : List Update := [⟨6, some ⟨some 123, 0⟩⟩, ⟨5, some ⟨some 123, 1⟩⟩]

/-- A status callback that itself raises on every invocation. -/
def cbStatusBoom : CbBehavior := ⟨fun _ _ => none, fun _ => some (PyExc.otherExc "boom")⟩

/-- A message callback raising exactly on update 6. -/
def cbBoomAt6 : CbBehavior :=
  ⟨fun uid _ => if uid == 6 then some (PyExc.otherExc "consumer failure") else none,
   fun _ => none⟩

/-- A configured group with a per-source token, not yet monitoring. -/
def g401 : TelegramGroup :=
  { name := "G", chat_id := "123", bot_token := some "TOKEN", auto_save := false,
    is_monitoring := false, monitor_instance := none, id := "gid1" }

/-- Registry holding only g401. -/
def reg401 : Registry := ⟨[("gid1", g401)], [("gid1", "Stopped")]⟩

/-- Scripted remote API: HTTP 401, and a further batch that would be served
if the loop fetched again. -/
def script401 : List FetchRes :=
  [FetchRes.resp 401 false [] none, FetchRes.resp 200 true demoBatch none]

/-- The registry after starting g401. -/
def start401 : StartOut := startSelectedMonitoring "DEF" 7 reg401 "gid1"

/-- The poll thread's run on the 401 script, from the started monitor. -/
def run401 : LoopOut :=
  pollUpdatesRun cbQuiet script401 (monitorStart 7 (mkMonitor "TOKEN" "123" "gid1")).monitor

/-- A configured group with no per-source token. -/
def gNoTok : TelegramGroup :=
  { name := "G", chat_id := "123", bot_token := none, auto_save := false,
    is_monitoring := false, monitor_instance := none, id := "G-123" }

/-- Registry holding only gNoTok. -/
def regNoTok : Registry := ⟨[("G-123", gNoTok)], [("G-123", "Stopped")]⟩

/-- A monitor that is currently running. -/
def mRun : MonitorState := (monitorStart 0 (mkMonitor "TOKEN" "123" "gidR")).monitor

/-- A group whose poll loop is currently running. -/
def gRun : TelegramGroup :=
  { name := "G", chat_id := "123", bot_token := some "TOKEN", auto_save := false,
    is_monitoring := true, monitor_instance := some mRun, id := "gidR" }

/-- Registry holding only gRun. -/
def regRun : Registry := ⟨[("gidR", gRun)], [("gidR", "Running")]⟩

theorem stepEvents_runBatch (target gid : String) (us : List Update) (last : Int) :
    stepEvents gid (runBatch cbQuiet target us last).trace
      = (relevantMsgs target us).map (fun m => Event.message m gid) := by
  induction us generalizing last with
  | nil => rfl
  | cons u rest ih =>
    cases hm : u.message with
    | none =>
      simp only [runBatch, hm, relevantMsgs, stepEvents, List.filterMap_cons]
      exact ih _
    | some m =>
      cases hc : chatIdStr m == target with
      | false =>
        simp only [runBatch, hm, hc, relevantMsgs, stepEvents, List.filterMap_cons,
          cond_false, if_false, Bool.false_eq_true]
        exact ih _
      | true =>
        simp only [runBatch, hm, hc, relevantMsgs, stepEvents, List.filterMap_cons,
          cbQuiet, if_true, List.map_cons]
        exact congrArg _ (ih _)

theorem runBatch_cursor_getLastD (target : String) (us : List Update) (last : Int) :
    (runBatch cbQuiet target us last).cursor
      = (us.map Update.update_id).getLastD last := by
  induction us generalizing last with
  | nil => rfl
  | cons u rest ih =>
    cases hm : u.message with
    | none =>
      simp only [runBatch, hm, List.map_cons, List.getLastD_cons]
      exact ih _
    | some m =>
      cases hc : chatIdStr m == target with
      | false =>
        simp only [runBatch, hm, hc, Bool.false_eq_true, if_false, List.map_cons,
          List.getLastD_cons]
        exact ih _
      | true =>
        simp only [runBatch, hm, hc, cbQuiet, if_true, List.map_cons, List.getLastD_cons]
        exact ih _

theorem runBatch_cbQuiet_exc (target : String) (us : List Update) (last : Int) :
    (runBatch cbQuiet target us last).exc = none := by
  induction us generalizing last with
  | nil => rfl
  | cons u rest ih =>
    cases hm : u.message with
    | none =>
      simp only [runBatch, hm]
      exact ih _
    | some m =>
      cases hc : chatIdStr m == target with
      | false =>
        simp only [runBatch, hm, hc, Bool.false_eq_true, if_false]
        exact ih _
      | true =>
        simp only [runBatch, hm, hc, if_true, cbQuiet]
        exact ih _

theorem getLastD_mem_le_of_sorted (l : List Int) (d : Int) (hne : l ≠ [])
    (hs : List.Sorted (· ≤ ·) l) :
    l.getLastD d ∈ l ∧ ∀ i ∈ l, i ≤ l.getLastD d := by
  induction l generalizing d with
  | nil => exact absurd rfl hne
  | cons a l ih =>
    rw [List.getLastD_cons]
    rcases List.sorted_cons.mp hs with ⟨ha, hl⟩
    cases l with
    | nil => simp
    | cons b l' =>
      have h2 := ih a (by simp) hl
      refine ⟨List.mem_cons_of_mem _ h2.1, ?_⟩
      intro i hi
      rcases List.mem_cons.mp hi with rfl | hi
      · exact ha _ h2.1
      · exact h2.2 i hi

/-- C1: for every fetched batch, the message-callback is invoked exactly
once, with (raw message, source id), for each update whose message chat id
str-equals the target, in batch order, and for no other update; in the
concrete scenario (target "123", update 5 for chat "123" and update 6 for
chat "456") exactly one delivery occurs and the next fetch uses offset 7. -/
theorem delivery_exactly_matching_and_offset7 (target gid : String)
    (us : List Update) (last : Int) :
    (stepEvents gid (runBatch cbQuiet target us last).trace
        = (relevantMsgs target us).map (fun m => Event.message m gid))
    ∧ (∀ (s : MonitorState) (us2 : List Update) (d : Option String),
        (iterate cbQuiet (FetchRes.resp 200 true us2 d) false s).events
          = stepEvents s.group_id (runBatch cbQuiet s.chat_id us2 s.last_update_id).trace)
    ∧ (messageEvents (pollUpdatesRun cbQuiet demoScript demoMonitor).events
        = [Event.message ⟨some 123, 0⟩ "g1"])
    ∧ ((pollUpdatesRun cbQuiet demoScript demoMonitor).offsets = [1, 7]) := by
  refine ⟨stepEvents_runBatch target gid us last, ?_, by decide, by decide⟩
  intro s us2 d
  cases us2 with
  | nil => rfl
  | cons u rest =>
    simp only [iterate, Bool.false_eq_true, if_false, beq_self_eq_true, if_true,
      List.isEmpty_cons, Bool.not_false, Bool.true_and, Bool.and_true,
      runBatch_cbQuiet_exc]

/-- C2 counterexample: on the unsorted batch [6, 5] the cursor after
processing is 5, the update_id of the last update, not the batch maximum 6. -/
theorem cursor_not_batch_max_on_unsorted :
    ((runBatch cbQuiet "123" unsortedBatch 0).cursor = 5)
    ∧ ((6 : Int) ∈ unsortedBatch.map Update.update_id)
    ∧ (∀ i ∈ unsortedBatch.map Update.update_id, i ≤ 6)
    ∧ ((runBatch cbQuiet "123" unsortedBatch 0).cursor ≠ 6) := by decide

/-- C2 (amended): for a nonempty batch sorted in non-decreasing update_id
order (as the remote API delivers), the cursor after processing equals the
maximum update-sequence-number of the batch, regardless of how many updates
were filtered out; for an arbitrary batch it is the last update's id. -/
theorem cursor_batch_max_of_sorted (target : String) (us : List Update) (last : Int)
    (hne : us ≠ [])
    (hs : List.Sorted (fun a b => a.update_id ≤ b.update_id) us) :
    (runBatch cbQuiet target us last).cursor ∈ us.map Update.update_id
    ∧ ∀ i ∈ us.map Update.update_id, i ≤ (runBatch cbQuiet target us last).cursor := by
  rw [runBatch_cursor_getLastD]
  refine getLastD_mem_le_of_sorted _ _ ?_ ?_
  · simpa using hne
  · exact List.pairwise_map.mpr hs

/-- Witness for the amended C2 theorem on the sorted demo batch. -/
theorem cursor_batch_max_of_sorted_witness :
    (runBatch cbQuiet "123" demoBatch 0).cursor ∈ demoBatch.map Update.update_id
    ∧ ∀ i ∈ demoBatch.map Update.update_id,
        i ≤ (runBatch cbQuiet "123" demoBatch 0).cursor :=
  cursor_batch_max_of_sorted "123" demoBatch 0 (by decide) (by decide)

theorem traceOk_runBatch (cb : CbBehavior) (target : String) (us : List Update)
    (last : Int) : TraceOk (runBatch cb target us last).trace := by
  induction us generalizing last with
  | nil => exact TraceOk.nil
  | cons u rest ih =>
    cases hm : u.message with
    | none =>
      simp only [runBatch, hm]
      exact TraceOk.skip _ _ (ih _)
    | some m =>
      cases hc : chatIdStr m == target with
      | false =>
        simp only [runBatch, hm, hc, Bool.false_eq_true, if_false]
        exact TraceOk.skip _ _ (ih _)
      | true =>
        simp only [runBatch, hm, hc, if_true]
        cases he : cb.msgExc u.update_id m with
        | some e => exact TraceOk.hit _ _ _ TraceOk.nil
        | none => exact TraceOk.hit _ _ _ (ih _)

theorem TraceOk.head_not_deliver {tr : List BatchStep} (h : TraceOk tr) (uid : Int)
    (m : TgMessage) : tr.get? 0 ≠ some (BatchStep.deliver uid m) := by
  cases h <;> simp

theorem TraceOk.assign_precedes {tr : List BatchStep} (h : TraceOk tr) :
    ∀ n uid m, tr.get? (n + 1) = some (BatchStep.deliver uid m) →
      tr.get? n = some (BatchStep.assign uid) := by
  induction h with
  | nil => intro n uid m hget; simp at hget
  | skip i tr htr ih =>
    intro n uid m hget
    rw [List.get?_cons_succ] at hget
    cases n with
    | zero => exact absurd hget (htr.head_not_deliver uid m)
    | succ k =>
      rw [List.get?_cons_succ]
      exact ih k uid m hget
  | hit i m0 tr htr ih =>
    intro n uid m hget
    cases n with
    | zero =>
      rw [List.get?_cons_succ, List.get?_cons_zero] at hget
      obtain ⟨rfl, rfl⟩ : uid = i ∧ m = m0 := by
        cases hget; exact ⟨rfl, rfl⟩
      rfl
    | succ k =>
      rw [List.get?_cons_succ, List.get?_cons_succ] at hget
      cases k with
      | zero => exact absurd hget (htr.head_not_deliver uid m)
      | succ j =>
        rw [List.get?_cons_succ, List.get?_cons_succ]
        exact ih j uid m hget

theorem runBatch_cursor_mem (cb : CbBehavior) (target : String) (us : List Update)
    (last : Int) :
    (runBatch cb target us last).cursor = last
      ∨ (runBatch cb target us last).cursor ∈ us.map Update.update_id := by
  induction us generalizing last with
  | nil => exact Or.inl rfl
  | cons u rest ih =>
    cases hm : u.message with
    | none =>
      simp only [runBatch, hm, List.map_cons]
      rcases ih u.update_id with hc | hc
      · exact Or.inr (by rw [hc]; exact List.mem_cons_self _ _)
      · exact Or.inr (List.mem_cons_of_mem _ hc)
    | some m =>
      cases hc : chatIdStr m == target with
      | false =>
        simp only [runBatch, hm, hc, Bool.false_eq_true, if_false, List.map_cons]
        rcases ih u.update_id with h | h
        · exact Or.inr (by rw [h]; exact List.mem_cons_self _ _)
        · exact Or.inr (List.mem_cons_of_mem _ h)
      | true =>
        simp only [runBatch, hm, hc, if_true, List.map_cons]
        cases he : cb.msgExc u.update_id m with
        | some e => exact Or.inr (List.mem_cons_self _ _)
        | none =>
          rcases ih u.update_id with h | h
          · exact Or.inr (by rw [h]; exact List.mem_cons_self _ _)
          · exact Or.inr (List.mem_cons_of_mem _ h)

theorem le_runBatch_cursor (cb : CbBehavior) (target : String) (rest : List Update)
    (last : Int) (h : ∀ v ∈ rest, last ≤ v.update_id) :
    last ≤ (runBatch cb target rest last).cursor := by
  rcases runBatch_cursor_mem cb target rest last with hc | hc
  · rw [hc]
  · rcases List.mem_map.mp hc with ⟨v, hv, hveq⟩
    rw [← hveq]
    exact h v hv

theorem deliver_le_cursor (cb : CbBehavior) (target : String) (us : List Update)
    (last : Int) (hs : List.Pairwise (fun a b => a.update_id ≤ b.update_id) us) :
    ∀ uid m, BatchStep.deliver uid m ∈ (runBatch cb target us last).trace →
      uid ≤ (runBatch cb target us last).cursor := by
  induction us generalizing last with
  | nil => intro uid m h; simp [runBatch] at h
  | cons u rest ih =>
    rcases List.pairwise_cons.mp hs with ⟨hu, hrest⟩
    intro uid m hmem
    cases hm : u.message with
    | none =>
      simp only [runBatch, hm] at hmem ⊢
      rcases List.mem_cons.mp hmem with hbad | htail
      · cases hbad
      · exact ih _ hrest uid m htail
    | some m0 =>
      cases hc : chatIdStr m0 == target with
      | false =>
        simp only [runBatch, hm, hc, Bool.false_eq_true, if_false] at hmem ⊢
        rcases List.mem_cons.mp hmem with hbad | htail
        · cases hbad
        · exact ih _ hrest uid m htail
      | true =>
        simp only [runBatch, hm, hc, if_true] at hmem ⊢
        cases he : cb.msgExc u.update_id m0 with
        | some e =>
          simp only [he] at hmem ⊢
          rcases List.mem_cons.mp hmem with hbad | htail
          · cases hbad
          · rcases List.mem_cons.mp htail with hdel | hnil
            · cases hdel; exact le_refl _
            · simp at hnil
        | none =>
          simp only [he] at hmem ⊢
          rcases List.mem_cons.mp hmem with hbad | htail
          · cases hbad
          · rcases List.mem_cons.mp htail with hdel | htl
            · cases hdel
              exact le_runBatch_cursor cb target rest u.update_id
                (fun v hv => hu v hv)
            · exact ih _ hrest uid m htl

/-- C10 counterexample: on an out-of-order batch [6, 5] with both updates
relevant, update 6 is delivered, yet the next fetch offset is cursor + 1 = 6,
which is not strictly greater than 6 — update 6 can be requested again. -/
theorem consumed_update_refetchable_unsorted :
    (BatchStep.deliver 6 ⟨some 123, 0⟩ ∈ (runBatch cbQuiet "123" unsortedRelevant 0).trace)
    ∧ ((runBatch cbQuiet "123" unsortedRelevant 0).cursor + 1 = 6)
    ∧ ¬ ((runBatch cbQuiet "123" unsortedRelevant 0).cursor + 1 > 6) := by decide

/-- C10 (amended): within one batch the cursor is assigned an update's
update_id strictly before the message-callback is invoked for it (every
delivery step in the trace is immediately preceded by the assignment of the
same id, and no delivery comes first); and when the batch is sorted in
non-decreasing update_id order — as the remote API delivers it — every
update whose callback was invoked, including one whose callback raised
mid-batch, has its id below the next fetch offset cursor + 1, so it is
never requested again. -/
theorem cursor_assigned_before_delivery (cb : CbBehavior) (target : String)
    (us : List Update) (last : Int)
    (hs : List.Sorted (fun a b => a.update_id ≤ b.update_id) us) :
    (∀ n uid m, (runBatch cb target us last).trace.get? (n + 1)
          = some (BatchStep.deliver uid m) →
        (runBatch cb target us last).trace.get? n = some (BatchStep.assign uid))
    ∧ (∀ uid m, (runBatch cb target us last).trace.get? 0
          ≠ some (BatchStep.deliver uid m))
    ∧ (∀ uid m, BatchStep.deliver uid m ∈ (runBatch cb target us last).trace →
        uid < (runBatch cb target us last).cursor + 1) := by
  refine ⟨(traceOk_runBatch cb target us last).assign_precedes,
    fun uid m => (traceOk_runBatch cb target us last).head_not_deliver uid m, ?_⟩
  intro uid m hmem
  have := deliver_le_cursor cb target us last hs uid m hmem
  omega

/-- Witness for the amended C10 theorem: sorted batch, callback raising on
update 6. -/
theorem cursor_assigned_before_delivery_witness :
    (∀ n uid m, (runBatch cbBoomAt6 "123" unsortedRelevant.reverse 0).trace.get? (n + 1)
          = some (BatchStep.deliver uid m) →
        (runBatch cbBoomAt6 "123" unsortedRelevant.reverse 0).trace.get? n
          = some (BatchStep.assign uid))
    ∧ (∀ uid m, (runBatch cbBoomAt6 "123" unsortedRelevant.reverse 0).trace.get? 0
          ≠ some (BatchStep.deliver uid m))
    ∧ (∀ uid m, BatchStep.deliver uid m
          ∈ (runBatch cbBoomAt6 "123" unsortedRelevant.reverse 0).trace →
        uid < (runBatch cbBoomAt6 "123" unsortedRelevant.reverse 0).cursor + 1) :=
  cursor_assigned_before_delivery cbBoomAt6 "123" unsortedRelevant.reverse 0 (by decide)

theorem exceptBlock_contained (cb : CbBehavior) (e : PyExc) (s : MonitorState)
    (prior : List Event) (hstatus : ∀ t, cb.statusExc t = none) :
    (exceptBlock cb e s prior).exc = none
    ∧ (exceptBlock cb e s prior).events.any Event.isError = true
    ∧ (exceptBlock cb e s prior).sleeps ≠ [] := by
  unfold exceptBlock
  simp only [hstatus]
  simp [Event.isError]

/-- C4 counterexample: the fetch raises a network exception and the status
callback invoked by the handler itself raises; that exception escapes the
iteration (and hence the loop), with no backoff-and-retry. -/
theorem status_callback_exception_escapes :
    ((iterate cbStatusBoom (FetchRes.netError "Connection refused") false demoMonitor).exc
      = some (PyExc.otherExc "boom"))
    ∧ ((iterate cbStatusBoom (FetchRes.netError "Connection refused") false
          demoMonitor).sleeps = []) := by decide

/-- C4 (amended): provided the status-callback returns normally, no
exception escapes an iteration — the fetch, response handling (including
the RuntimeError raised by the 401-branch stop) and the message callback
are all caught inside the loop — and every such try-body failure produces
at least one error-severity status event followed by a backoff sleep: this
holds for a fetch network exception, any other fetch exception, a
message-callback exception mid-batch, and the 401-branch stop failure.  An
exception raised by the status-callback itself, however, propagates out of
the loop. -/
theorem iteration_exceptions_contained (cb : CbBehavior) (r : FetchRes)
    (extStop : Bool) (s : MonitorState) (emsg : String) (us : List Update)
    (d : Option String) (ok : Bool) (t : Nat)
    (hstatus : ∀ txt, cb.statusExc txt = none)
    (hthread : s.thread = some t) :
    ((iterate cb r extStop s).exc = none)
    ∧ ((iterate cb (FetchRes.netError emsg) extStop s).events.any Event.isError = true
        ∧ (iterate cb (FetchRes.netError emsg) extStop s).sleeps ≠ [])
    ∧ ((iterate cb (FetchRes.otherError emsg) extStop s).events.any Event.isError = true
        ∧ (iterate cb (FetchRes.otherError emsg) extStop s).sleeps ≠ [])
    ∧ (∀ e, (runBatch cb s.chat_id us s.last_update_id).exc = some e →
        (iterate cb (FetchRes.resp 200 true us d) false s).events.any Event.isError = true
        ∧ (iterate cb (FetchRes.resp 200 true us d) false s).sleeps ≠ [])
    ∧ ((iterate cb (FetchRes.resp 401 ok us d) false s).events.any Event.isError = true
        ∧ (iterate cb (FetchRes.resp 401 ok us d) false s).sleeps ≠ []) := by
  refine ⟨?_, ?_, ?_, ?_, ?_⟩
  · cases r with
    | netError msg => exact (exceptBlock_contained cb _ s _ hstatus).1
    | otherError msg => exact (exceptBlock_contained cb _ s _ hstatus).1
    | resp status ok2 result desc =>
      simp only [iterate]
      cases extStop with
      | true => rfl
      | false =>
        simp only [Bool.false_eq_true, if_false]
        cases h200 : status == 200 with
        | true =>
          simp only [if_true]
          cases hok : ok2 && !result.isEmpty with
          | true =>
            simp only [if_true]
            cases he : (runBatch cb s.chat_id result s.last_update_id).exc with
            | some e => exact (exceptBlock_contained cb _ _ _ hstatus).1
            | none => rfl
          | false =>
            simp only [Bool.false_eq_true, if_false]
            cases hnok : !ok2 with
            | true =>
              simp only [if_true, hstatus]
            | false => simp only [Bool.false_eq_true, if_false]
        | false =>
          simp only [Bool.false_eq_true, if_false]
          cases h401 : status == 401 with
          | true =>
            simp only [if_true, hstatus]
            unfold stopFromPollThread
            cases s.thread with
            | some t2 => exact (exceptBlock_contained cb _ _ _ hstatus).1
            | none => simp [hstatus]
          | false =>
            simp only [Bool.false_eq_true, if_false, hstatus]
  · exact ⟨(exceptBlock_contained cb _ s _ hstatus).2.1,
      (exceptBlock_contained cb _ s _ hstatus).2.2⟩
  · exact ⟨(exceptBlock_contained cb _ s _ hstatus).2.1,
      (exceptBlock_contained cb _ s _ hstatus).2.2⟩
  · intro e he
    cases us with
    | nil => simp [runBatch] at he
    | cons u rest =>
      simp only [iterate, Bool.false_eq_true, if_false, beq_self_eq_true, if_true,
        List.isEmpty_cons, Bool.not_false, Bool.and_true, he]
      exact ⟨(exceptBlock_contained cb _ _ _ hstatus).2.1,
        (exceptBlock_contained cb _ _ _ hstatus).2.2⟩
  · have h1 : ((401 : Nat) == 200) = false := rfl
    have h2 : ((401 : Nat) == 401) = true := rfl
    simp only [iterate, Bool.false_eq_true, if_false, h1, h2, if_true, hstatus]
    unfold stopFromPollThread
    simp only [hthread]
    exact ⟨(exceptBlock_contained cb _ _ _ hstatus).2.1,
      (exceptBlock_contained cb _ _ _ hstatus).2.2⟩

/-- Witness for the amended C4 theorem: with a quiet status callback and a
message callback raising on update 6, every failure class is contained
with at least one error event and a backoff, including a scripted 401. -/
theorem iteration_exceptions_contained_witness :
    ((iterate cbBoomAt6 (FetchRes.netError "timeout") false demoMonitor).exc = none)
    ∧ ((iterate cbBoomAt6 (FetchRes.netError "timeout") false demoMonitor).events.any
          Event.isError = true
        ∧ (iterate cbBoomAt6 (FetchRes.netError "timeout") false demoMonitor).sleeps ≠ [])
    ∧ ((iterate cbBoomAt6 (FetchRes.otherError "timeout") false demoMonitor).events.any
          Event.isError = true
        ∧ (iterate cbBoomAt6 (FetchRes.otherError "timeout") false demoMonitor).sleeps ≠ [])
    ∧ (∀ e, (runBatch cbBoomAt6 demoMonitor.chat_id [⟨6, some ⟨some 123, 0⟩⟩]
          demoMonitor.last_update_id).exc = some e →
        (iterate cbBoomAt6 (FetchRes.resp 200 true [⟨6, some ⟨some 123, 0⟩⟩] none) false
            demoMonitor).events.any Event.isError = true
        ∧ (iterate cbBoomAt6 (FetchRes.resp 200 true [⟨6, some ⟨some 123, 0⟩⟩] none) false
            demoMonitor).sleeps ≠ [])
    ∧ ((iterate cbBoomAt6 (FetchRes.resp 401 false [⟨6, some ⟨some 123, 0⟩⟩] none) false
          demoMonitor).events.any Event.isError = true
        ∧ (iterate cbBoomAt6 (FetchRes.resp 401 false [⟨6, some ⟨some 123, 0⟩⟩] none) false
          demoMonitor).sleeps ≠ []) :=
  iteration_exceptions_contained cbBoomAt6 (FetchRes.netError "timeout") false demoMonitor
    "timeout" [⟨6, some ⟨some 123, 0⟩⟩] none false 0 (fun _ => rfl) rfl

/-- C5 counterexample: the backoff after a non-200 transport-level HTTP
status (500) is 10 seconds, the same as the backoff after an ok:false
application error — not strictly longer, refuting the claimed ordering. -/
theorem transport_backoff_not_longer :
    ((iterate cbQuiet (FetchRes.resp 500 false [] none) false demoMonitor).sleeps
      = [10, 1])
    ∧ ((iterate cbQuiet (FetchRes.resp 200 false [] (some "Bad Request")) false
          demoMonitor).sleeps = [10, 1])
    ∧ ¬ (((iterate cbQuiet (FetchRes.resp 500 false [] none) false
            demoMonitor).sleeps.headD 0)
          > ((iterate cbQuiet (FetchRes.resp 200 false [] (some "Bad Request")) false
            demoMonitor).sleeps.headD 0)) := by decide

/-- C5 (amended): after each recoverable failure the loop sleeps and
retries, with fixed intervals per class: 10 s after an ok:false application
error, 15 s after a network exception, 10 s after a non-200 HTTP status
other than 401, and 10 s after any other unexpected exception (each followed
by the 1 s pacing sleep).  Only the network-exception backoff is strictly
longer than the application-error backoff; the non-200-status and
unexpected-exception backoffs equal it. -/
theorem backoff_tiers (s : MonitorState) (desc : Option String) (emsg : String)
    (status : Nat) (h200 : status ≠ 200) (h401 : status ≠ 401) (ok : Bool)
    (us : List Update) :
    ((iterate cbQuiet (FetchRes.resp 200 false us desc) false s).sleeps = [10, 1])
    ∧ ((iterate cbQuiet (FetchRes.netError emsg) false s).sleeps = [15, 1])
    ∧ ((iterate cbQuiet (FetchRes.resp status ok us desc) false s).sleeps = [10, 1])
    ∧ ((iterate cbQuiet (FetchRes.otherError emsg) false s).sleeps = [10, 1])
    ∧ (15 > 10) := by
  refine ⟨?_, ?_, ?_, ?_, by omega⟩
  · simp [iterate, cbQuiet]
  · simp [iterate, exceptBlock, handleLoopExc, cbQuiet]
  · have h2 : (status == 200) = false := by simpa using h200
    have h4 : (status == 401) = false := by simpa using h401
    simp [iterate, exceptBlock, handleLoopExc, cbQuiet, h2, h4]
  · simp [iterate, exceptBlock, handleLoopExc, cbQuiet]

/-- Witness for the amended C5 theorem at HTTP status 500. -/
theorem backoff_tiers_witness :
    ((iterate cbQuiet (FetchRes.resp 200 false [] none) false demoMonitor).sleeps
        = [10, 1])
    ∧ ((iterate cbQuiet (FetchRes.netError "refused") false demoMonitor).sleeps
        = [15, 1])
    ∧ ((iterate cbQuiet (FetchRes.resp 500 true [] none) false demoMonitor).sleeps
        = [10, 1])
    ∧ ((iterate cbQuiet (FetchRes.otherError "refused") false demoMonitor).sleeps
        = [10, 1])
    ∧ (15 > 10) :=
  backoff_tiers demoMonitor none "refused" 500 (by omega) (by omega) true []

theorem lookupGroups_updateGroups (gs : List (String × TelegramGroup)) (gid : String)
    (g' : TelegramGroup) :
    lookupGroups (updateGroups gs gid g') gid
      = (lookupGroups gs gid).map (fun _ => g') := by
  induction gs with
  | nil => rfl
  | cons p gs ih =>
    cases hp : p.1 == gid with
    | true =>
      simp only [updateGroups, List.map_cons, hp, if_true, lookupGroups,
        List.find?_cons]
      rfl
    | false =>
      simp only [updateGroups, List.map_cons, hp, Bool.false_eq_true, if_false,
        lookupGroups, List.find?_cons] at ih ⊢
      exact ih

theorem updateGroups_keys (gs : List (String × TelegramGroup)) (gid : String)
    (g' : TelegramGroup) :
    (updateGroups gs gid g').map Prod.fst = gs.map Prod.fst := by
  induction gs with
  | nil => rfl
  | cons p gs ih =>
    simp only [updateGroups, List.map_cons] at ih ⊢
    refine congrArg₂ _ ?_ ih
    cases hp : p.1 == gid <;> simp

/-- C3 (the code evaluated at the failing input, a scripted HTTP 401): the
poll thread emits the unauthorized error event, then self.stop() — called
from inside the poll thread — raises RuntimeError("cannot join current
thread") from Thread.join, so a second error-severity event is emitted, the
running flag still transitions to false once and no further fetch is issued
(only offset 1 is ever requested), but the registry entry started for this
monitor keeps is_monitoring = true and its tree row keeps showing
"Running". -/
theorem http401_two_errors_and_registry_still_running :
    (run401.events =
        [Event.status "Polling for updates from chat ID: 123..." "info" "gid1",
         Event.status "API Error: Unauthorized. Check bot token." "error" "gid1",
         Event.status "Polling Error: cannot join current thread" "error" "gid1"])
    ∧ ((run401.events.filter Event.isError).length = 2)
    ∧ (run401.state.running = false)
    ∧ (run401.offsets = [1])
    ∧ (run401.exc = none)
    ∧ ((lookupGroups start401.reg.groups "gid1").map TelegramGroup.is_monitoring
        = some true)
    ∧ (start401.reg.treeStatus = [("gid1", "Running")])
    ∧ (((lookupGroups start401.reg.groups "gid1").bind TelegramGroup.monitor_instance)
        = some (monitorStart 7 (mkMonitor "TOKEN" "123" "gid1")).monitor) := by decide

/-- C6 counterexample: starting a source whose group has no per-source
credential while the shared default is empty is not rejected — a monitor is
created with the empty token, its poll thread is spawned, and the registry
marks the source monitoring. -/
theorem start_without_credential_not_rejected :
    ((startSelectedMonitoring "" 3 regNoTok "G-123").spawned = true)
    ∧ ((lookupGroups (startSelectedMonitoring "" 3 regNoTok "G-123").reg.groups
          "G-123").map TelegramGroup.is_monitoring = some true)
    ∧ (((lookupGroups (startSelectedMonitoring "" 3 regNoTok "G-123").reg.groups
          "G-123").bind TelegramGroup.monitor_instance).map MonitorState.bot_token
        = some "")
    ∧ (((lookupGroups (startSelectedMonitoring "" 3 regNoTok "G-123").reg.groups
          "G-123").bind TelegramGroup.monitor_instance).map MonitorState.running
        = some true) := by decide

/-- C6 (amended): starting a source with no per-source credential performs
no synchronous configuration check: it falls back to the shared default
token — whatever that is, including empty — creates a monitor carrying that
token, spawns its poll loop and marks the source monitoring. -/
theorem start_without_token_uses_default (reg : Registry) (gid : String)
    (g : TelegramGroup) (defTok : String) (fresh : Nat)
    (hg : lookupGroups reg.groups gid = some g)
    (hmon : g.is_monitoring = false)
    (htok : g.bot_token = none) :
    ((startSelectedMonitoring defTok fresh reg gid).spawned = true)
    ∧ ((lookupGroups (startSelectedMonitoring defTok fresh reg gid).reg.groups gid).map
        TelegramGroup.is_monitoring = some true)
    ∧ (((lookupGroups (startSelectedMonitoring defTok fresh reg gid).reg.groups
          gid).bind TelegramGroup.monitor_instance).map MonitorState.bot_token
        = some defTok)
    ∧ (((lookupGroups (startSelectedMonitoring defTok fresh reg gid).reg.groups
          gid).bind TelegramGroup.monitor_instance).map MonitorState.running
        = some true) := by
  unfold startSelectedMonitoring
  rw [hg]
  simp only [hmon, Bool.false_eq_true, if_false, htok, pyOrStr]
  simp [lookupGroups_updateGroups, hg, monitorStart, mkMonitor]

/-- Witness for the amended C6 theorem on the concrete tokenless registry. -/
theorem start_without_token_uses_default_witness :
    ((startSelectedMonitoring "DEF" 4 regNoTok "G-123").spawned = true)
    ∧ ((lookupGroups (startSelectedMonitoring "DEF" 4 regNoTok "G-123").reg.groups
          "G-123").map TelegramGroup.is_monitoring = some true)
    ∧ (((lookupGroups (startSelectedMonitoring "DEF" 4 regNoTok "G-123").reg.groups
          "G-123").bind TelegramGroup.monitor_instance).map MonitorState.bot_token
        = some "DEF")
    ∧ (((lookupGroups (startSelectedMonitoring "DEF" 4 regNoTok "G-123").reg.groups
          "G-123").bind TelegramGroup.monitor_instance).map MonitorState.running
        = some true) :=
  start_without_token_uses_default regNoTok "G-123" gNoTok "DEF" 4 rfl rfl rfl

/-- C7: starting a source whose loop is already running is a no-op at both
levels — _start_selected_monitoring returns the registry unchanged, emits
nothing and spawns no thread when is_monitoring is set, and
TelegramMonitor.start returns immediately on a running monitor, leaving the
state (including the bound thread) unchanged and spawning nothing. -/
theorem start_running_is_noop (reg : Registry) (gid : String) (g : TelegramGroup)
    (defTok : String) (fresh fresh2 : Nat) (m : MonitorState)
    (hg : lookupGroups reg.groups gid = some g)
    (hmon : g.is_monitoring = true)
    (hrun : m.running = true) :
    (startSelectedMonitoring defTok fresh reg gid = ⟨reg, [], false⟩)
    ∧ (monitorStart fresh2 m = ⟨m, [], false⟩) := by
  constructor
  · unfold startSelectedMonitoring
    rw [hg]
    simp [hmon]
  · unfold monitorStart
    simp [hrun]

/-- Witness for C7 on the concrete running registry. -/
theorem start_running_is_noop_witness :
    (startSelectedMonitoring "DEF" 1 regRun "gidR" = ⟨regRun, [], false⟩)
    ∧ (monitorStart 1 mRun = ⟨mRun, [], false⟩) :=
  start_running_is_noop regRun "gidR" gRun "DEF" 1 1 mRun rfl rfl (by decide)

theorem stopSelected_noop_of_not_monitoring (reg : Registry) (gid : String)
    (g : TelegramGroup) (hg : lookupGroups reg.groups gid = some g)
    (hmon : g.is_monitoring = false) :
    stopSelectedMonitoring reg gid = ⟨reg, []⟩ := by
  unfold stopSelectedMonitoring
  rw [hg]
  simp [hmon]

/-- C8: stopping a stopped source is a no-op.  An original stop of a
monitored source emits exactly the "Monitoring stopped." info event and
clears is_monitoring; a second stop call on the resulting registry finds
is_monitoring false, changes nothing and emits no event at all — in
particular no further "stopped" status event. -/
theorem stop_stopped_is_noop (reg : Registry) (gid : String) (g : TelegramGroup)
    (m : MonitorState)
    (hg : lookupGroups reg.groups gid = some g)
    (hmon : g.is_monitoring = true)
    (hmi : g.monitor_instance = some m) :
    ((stopSelectedMonitoring reg gid).events
      = [Event.status "Monitoring stopped." "info" m.group_id])
    ∧ (stopSelectedMonitoring (stopSelectedMonitoring reg gid).reg gid
      = ⟨(stopSelectedMonitoring reg gid).reg, []⟩) := by
  constructor
  · unfold stopSelectedMonitoring
    rw [hg]
    simp [hmon, hmi, monitorStopExternal]
  · have hl2 : lookupGroups (stopSelectedMonitoring reg gid).reg.groups gid
        = some { g with
                 is_monitoring := false,
                 monitor_instance := some (monitorStopExternal m).1 } := by
      unfold stopSelectedMonitoring
      rw [hg]
      simp only [hmon, if_true, hmi]
      rw [lookupGroups_updateGroups, hg]
      rfl
    exact stopSelected_noop_of_not_monitoring _ gid _ hl2 rfl

/-- Witness for C8 on the concrete running registry. -/
theorem stop_stopped_is_noop_witness :
    ((stopSelectedMonitoring regRun "gidR").events
      = [Event.status "Monitoring stopped." "info" mRun.group_id])
    ∧ (stopSelectedMonitoring (stopSelectedMonitoring regRun "gidR").reg "gidR"
      = ⟨(stopSelectedMonitoring regRun "gidR").reg, []⟩) :=
  stop_stopped_is_noop regRun "gidR" gRun mRun rfl rfl rfl

/-- C9: the identifier of a group is derived deterministically from its name
and str-normalized chat id at construction — equal name and chat id yield
equal identifiers whatever the credential or auto-save flag — and the edit
action leaves both the stored identifier and the registry key under which
the group is held unchanged while updating name, chat id and credential. -/
theorem group_identity_deterministic_and_immutable (f : String → String)
    (n : String) (c : PyVal) (t t' : Option String) (a a' : Bool) (reg : Registry)
    (gid n2 c2 : String) (t2 : Option String) :
    ((mkTelegramGroup f n c t a).id = f (n ++ "-" ++ pyStr c))
    ∧ ((mkTelegramGroup f n c t a).id = (mkTelegramGroup f n c t' a').id)
    ∧ ((saveActionEdit reg gid n2 c2 t2).groups.map Prod.fst = reg.groups.map Prod.fst)
    ∧ ((lookupGroups (saveActionEdit reg gid n2 c2 t2).groups gid).map TelegramGroup.id
        = (lookupGroups reg.groups gid).map TelegramGroup.id) := by
  refine ⟨rfl, rfl, ?_, ?_⟩
  · unfold saveActionEdit
    cases hv : n2 == "" || c2 == "" with
    | true => simp
    | false =>
      simp only [Bool.false_eq_true, if_false]
      cases hl : lookupGroups reg.groups gid with
      | some g => exact updateGroups_keys reg.groups gid _
      | none => rfl
  · unfold saveActionEdit
    cases hv : n2 == "" || c2 == "" with
    | true => simp
    | false =>
      simp only [Bool.false_eq_true, if_false]
      cases hl : lookupGroups reg.groups gid with
      | some g => simp [lookupGroups_updateGroups, hl]
      | none => simp [hl]

end TgMon
